import Mathlib

set_option maxRecDepth 1000000
set_option maxHeartbeats 4000000

/-!
# Verification of the Telegram mini-app backend (`backend/api.py`)

This file shallowly embeds the core of `backend/api.py` — the signed-session
verifier `verify_telegram_init_data`, identity resolution
`get_user_id_from_request`, the `/api/reading` handler (policy filter, balance
check, generation, deduction, history append), and the `/api/history`
pagination — and proves or refutes the frozen specification claims about them.

Conventions of the embedding:
* Python byte strings are `List Nat` (each element < 256); text is `String`.
* SHA-256 / HMAC-SHA256 are implemented executably (structural recursion only)
  so that concrete hashes evaluate inside the kernel.
* Fallible Python operations (`int(...)`, `json.loads`) are `Option`-valued;
  an uncaught Python exception is an `Except.error`.
* `datetime.now().timestamp()` is an explicit `now : Int` parameter; the
  `config` module's `BOT_TOKEN` is an explicit `botToken : String` parameter.
* Database primitives (`database.py` is not part of the sources) are modelled
  from the spec; each such definition says so in its doc comment.
-/

namespace Proverka

/-! ## Bytes, hex, UTF-8 -/

/-- Concatenating map over a list (used instead of `List.flatMap` so all
recursion in this file is plainly structural). -/
def flatMapL (f : α → List β) : List α → List β
  | [] => []
  | x :: xs => f x ++ flatMapL f xs

/-- UTF-8 encoding of a single unicode scalar value. -/
def utf8EncodeChar (c : Char) : List Nat :=
  let n := c.toNat
  if n < 0x80 then [n]
  else if n < 0x800 then [0xC0 + n / 64, 0x80 + n % 64]
  else if n < 0x10000 then [0xE0 + n / 4096, 0x80 + (n / 64) % 64, 0x80 + n % 64]
  else [0xF0 + n / 262144, 0x80 + (n / 4096) % 64, 0x80 + (n / 64) % 64, 0x80 + n % 64]

/-- `s.encode('utf-8')`. -/
def utf8Encode (s : String) : List Nat := flatMapL utf8EncodeChar s.data

/-- Lower-case hex digit. -/
def hexChar (n : Nat) : Char := if n < 10 then Char.ofNat (48 + n) else Char.ofNat (87 + n)

/-- Two lower-case hex digits of a byte. -/
def hexByte (b : Nat) : List Char := [hexChar (b / 16), hexChar (b % 16)]

/-- `.hexdigest()`: lower-case hex rendering of a byte string. -/
def hexDigest (bs : List Nat) : String := String.mk (flatMapL hexByte bs)

/-! ## SHA-256 (FIPS 180-4), executable over byte lists -/

def M32 : Nat := 4294967296

def add32 (a b : Nat) : Nat := (a + b) % M32

def rotr32 (n x : Nat) : Nat := ((x >>> n) ||| (x <<< (32 - n))) % M32

def bigSigma0 (x : Nat) : Nat := rotr32 2 x ^^^ rotr32 13 x ^^^ rotr32 22 x
def bigSigma1 (x : Nat) : Nat := rotr32 6 x ^^^ rotr32 11 x ^^^ rotr32 25 x
def smallSigma0 (x : Nat) : Nat := rotr32 7 x ^^^ rotr32 18 x ^^^ (x >>> 3)
def smallSigma1 (x : Nat) : Nat := rotr32 17 x ^^^ rotr32 19 x ^^^ (x >>> 10)
def shaCh (x y z : Nat) : Nat := (x &&& y) ^^^ ((x ^^^ (M32 - 1)) &&& z)
def shaMaj (x y z : Nat) : Nat := (x &&& y) ^^^ (x &&& z) ^^^ (y &&& z)

/-- The 64 round constants of FIPS 180-4 §4.2.2, in decimal. -/
def sha256K : List Nat :=
  [1116352408, 1899447441, 3049323471, 3921009573, 961987163,
   1508970993, 2453635748, 2870763221, 3624381080, 310598401,
   607225278, 1426881987, 1925078388, 2162078206, 2614888103,
   3248222580, 3835390401, 4022224774, 264347078, 604807628,
   770255983, 1249150122, 1555081692, 1996064986, 2554220882,
   2821834349, 2952996808, 3210313671, 3336571891, 3584528711,
   113926993, 338241895, 666307205, 773529912, 1294757372,
   1396182291, 1695183700, 1986661051, 2177026350, 2456956037,
   2730485921, 2820302411, 3259730800, 3345764771, 3516065817,
   3600352804, 4094571909, 275423344, 430227734, 506948616,
   659060556, 883997877, 958139571, 1322822218, 1537002063,
   1747873779, 1955562222, 2024104815, 2227730452, 2361852424,
   2428436474, 2756734187, 3204031479, 3329325298]

/-- The initial hash state of FIPS 180-4 §5.3.3, in decimal. -/
def sha256Init : List Nat :=
  [1779033703, 3144134277, 1013904242, 2773480762,
   1359893119, 2600822924, 528734635, 1541459225]

/-- Big-endian 32-bit words of a byte list (groups of 4). -/
def wordsBE : List Nat → List Nat
  | b0 :: b1 :: b2 :: b3 :: rest => (((b0 * 256 + b1) * 256 + b2) * 256 + b3) :: wordsBE rest
  | _ => []

/-- 8-byte big-endian rendering of a (length) value. -/
def be64 (n : Nat) : List Nat :=
  [(n >>> 56) % 256, (n >>> 48) % 256, (n >>> 40) % 256, (n >>> 32) % 256,
   (n >>> 24) % 256, (n >>> 16) % 256, (n >>> 8) % 256, n % 256]

/-- 4-byte big-endian rendering of a 32-bit word. -/
def be32 (n : Nat) : List Nat := [(n >>> 24) % 256, (n >>> 16) % 256, (n >>> 8) % 256, n % 256]

/-- SHA-256 padding: `0x80`, zeros, 64-bit bit length. -/
def sha256Pad (msg : List Nat) : List Nat :=
  msg ++ 0x80 :: List.replicate ((119 - msg.length % 64) % 64) 0 ++ be64 (8 * msg.length)

/-- Split into 64-byte blocks (fuel-based so the kernel can evaluate it). -/
def chunks64Fuel : Nat → List Nat → List (List Nat)
  | 0, _ => []
  | _, [] => []
  | fuel + 1, l => l.take 64 :: chunks64Fuel fuel (l.drop 64)

def chunks64 (l : List Nat) : List (List Nat) := chunks64Fuel l.length l

/-- Message schedule: the 16 block words extended to 64. -/
def sha256Schedule (w16 : List Nat) : List Nat :=
  (List.range 48).foldl
    (fun ws i =>
      ws ++ [add32 (add32 (smallSigma1 (ws.getD (i + 14) 0)) (ws.getD (i + 9) 0))
                   (add32 (smallSigma0 (ws.getD (i + 1) 0)) (ws.getD i 0))])
    w16

/-- One compression round; the state is the 8-word list `[a,b,c,d,e,f,g,h]`. -/
def sha256Round (st : List Nat) (kw : Nat × Nat) : List Nat :=
  let a := st.getD 0 0
  let b := st.getD 1 0
  let c := st.getD 2 0
  let d := st.getD 3 0
  let e := st.getD 4 0
  let f := st.getD 5 0
  let g := st.getD 6 0
  let h := st.getD 7 0
  let t1 := add32 h (add32 (bigSigma1 e) (add32 (shaCh e f g) (add32 kw.1 kw.2)))
  let t2 := add32 (bigSigma0 a) (shaMaj a b c)
  [add32 t1 t2, a, b, c, add32 d t1, e, f, g]

/-- Compress one 64-byte block into the running hash. -/
def sha256Compress (h : List Nat) (block : List Nat) : List Nat :=
  let st := ((sha256K.zip (sha256Schedule (wordsBE block))).foldl sha256Round h)
  [add32 (h.getD 0 0) (st.getD 0 0), add32 (h.getD 1 0) (st.getD 1 0),
   add32 (h.getD 2 0) (st.getD 2 0), add32 (h.getD 3 0) (st.getD 3 0),
   add32 (h.getD 4 0) (st.getD 4 0), add32 (h.getD 5 0) (st.getD 5 0),
   add32 (h.getD 6 0) (st.getD 6 0), add32 (h.getD 7 0) (st.getD 7 0)]

/-- SHA-256 digest (32 bytes) of a byte list. -/
def sha256 (msg : List Nat) : List Nat :=
  flatMapL be32 ((chunks64 (sha256Pad msg)).foldl sha256Compress sha256Init)

/-- HMAC-SHA256 (`hmac.new(key, msg, hashlib.sha256).digest()`). -/
def hmacSha256 (key msg : List Nat) : List Nat :=
  let k0 := if 64 < key.length then sha256 key else key
  let kp := k0 ++ List.replicate (64 - k0.length) 0
  sha256 ((kp.map (fun b => b ^^^ 0x5c)) ++ sha256 ((kp.map (fun b => b ^^^ 0x36)) ++ msg))

/-- `hmac.new(key, msg, hashlib.sha256).hexdigest()`. -/
def hmacHex (key msg : List Nat) : String := hexDigest (hmacSha256 key msg)

/-! ## `urllib.parse.parse_qs` (CPython semantics, default arguments)

`parse_qsl` splits on `&`, skips empty segments, segments without `=` and
segments with an empty raw value (`keep_blank_values=False`), replaces `+`
with a space in name and value, then percent-decodes (`unquote` with UTF-8
and `errors='replace'`). `parse_qs` groups values by key, keys in first
occurrence order, values in occurrence order. -/

def replacementChar : Char := Char.ofNat 0xFFFD

def isUtf8Cont (b : Nat) : Bool := 128 ≤ b && b < 192

/-- UTF-8 decoding with U+FFFD replacement, as `bytes.decode('utf-8',
'replace')` on the byte runs produced by percent-escapes.  An invalid lead or
continuation byte yields one replacement character for the lead byte and
decoding resumes at the next byte (CPython may group some invalid subparts
differently; every theorem instance below stays in the ASCII fragment, where
the two agree exactly). -/
def utf8DecodeReplace : Nat → List Nat → List Char
  | 0, _ => []
  | _, [] => []
  | fuel + 1, b :: rest =>
    if b < 0x80 then Char.ofNat b :: utf8DecodeReplace fuel rest
    else if 0xC2 ≤ b && b ≤ 0xDF then
      match rest with
      | b2 :: rest2 =>
        if isUtf8Cont b2 then Char.ofNat ((b - 0xC0) * 64 + (b2 - 0x80)) :: utf8DecodeReplace fuel rest2
        else replacementChar :: utf8DecodeReplace fuel rest
      | [] => [replacementChar]
    else if 0xE0 ≤ b && b ≤ 0xEF then
      match rest with
      | b2 :: b3 :: rest3 =>
        if (isUtf8Cont b2 && isUtf8Cont b3
            && (b ≠ 0xE0 || 0xA0 ≤ b2) && (b ≠ 0xED || b2 < 0xA0)) then
          Char.ofNat (((b - 0xE0) * 64 + (b2 - 0x80)) * 64 + (b3 - 0x80)) :: utf8DecodeReplace fuel rest3
        else replacementChar :: utf8DecodeReplace fuel rest
      | _ => replacementChar :: utf8DecodeReplace fuel rest
    else if 0xF0 ≤ b && b ≤ 0xF4 then
      match rest with
      | b2 :: b3 :: b4 :: rest4 =>
        if (isUtf8Cont b2 && isUtf8Cont b3 && isUtf8Cont b4
            && (b ≠ 0xF0 || 0x90 ≤ b2) && (b ≠ 0xF4 || b2 < 0x90)) then
          Char.ofNat ((((b - 0xF0) * 64 + (b2 - 0x80)) * 64 + (b3 - 0x80)) * 64 + (b4 - 0x80))
            :: utf8DecodeReplace fuel rest4
        else replacementChar :: utf8DecodeReplace fuel rest
      | _ => replacementChar :: utf8DecodeReplace fuel rest
    else replacementChar :: utf8DecodeReplace fuel rest

/-- Value of an ASCII hex digit. -/
def hexVal (c : Char) : Option Nat :=
  if '0' ≤ c && c ≤ '9' then some (c.toNat - 48)
  else if 'a' ≤ c && c ≤ 'f' then some (c.toNat - 87)
  else if 'A' ≤ c && c ≤ 'F' then some (c.toNat - 55)
  else none

/-- Consume a maximal run of valid `%hh` escapes, returning the decoded bytes
and the remaining input. -/
def pctRun : List Char → List Nat × List Char
  | '%' :: a :: b :: rest =>
    match hexVal a, hexVal b with
    | some ha, some hb =>
      let p := pctRun rest
      ((16 * ha + hb) :: p.1, p.2)
    | _, _ => ([], '%' :: a :: b :: rest)
  | l => ([], l)

/-- `urllib.parse.unquote` on characters: maximal `%hh` runs are decoded as
UTF-8 (with replacement); a `%` not starting a valid escape is kept. -/
def pyUnquoteAux : Nat → List Char → List Char
  | 0, _ => []
  | _, [] => []
  | fuel + 1, '%' :: rest =>
    match pctRun ('%' :: rest) with
    | ([], _) => '%' :: pyUnquoteAux fuel rest
    | (bs, rest2) => utf8DecodeReplace bs.length bs ++ pyUnquoteAux fuel rest2
  | fuel + 1, c :: rest => c :: pyUnquoteAux fuel rest

def pyUnquote (l : List Char) : List Char := pyUnquoteAux l.length l

/-- `'+'` → `' '` (applied by `parse_qsl` before `unquote`). -/
def plusToSpace (l : List Char) : List Char := l.map (fun c => if c = '+' then ' ' else c)

/-- Split a character list on a separator character. -/
def splitOnCharL (sep : Char) : List Char → List (List Char)
  | [] => [[]]
  | c :: rest =>
    if c = sep then [] :: splitOnCharL sep rest
    else
      match splitOnCharL sep rest with
      | h :: t => (c :: h) :: t
      | [] => [[c]]

/-- `seg.split('=', 1)`: `none` when `=` does not occur. -/
def splitFirstEq : List Char → Option (List Char × List Char)
  | [] => none
  | c :: rest =>
    if c = '=' then some ([], rest)
    else (splitFirstEq rest).map (fun p => (c :: p.1, p.2))

/-- `urllib.parse.parse_qsl(qs)` with CPython's default arguments. -/
def parse_qsl (qs : String) : List (String × String) :=
  (splitOnCharL '&' qs.data).foldr
    (fun seg acc =>
      if seg = [] then acc
      else
        match splitFirstEq seg with
        | none => acc
        | some (n, v) =>
          if v = [] then acc
          else (String.mk (pyUnquote (plusToSpace n)), String.mk (pyUnquote (plusToSpace v))) :: acc)
    []

/-- Append a pair into the grouped dictionary, keeping first-occurrence key
order and per-key value order. -/
def addPair : List (String × List String) → String × String → List (String × List String)
  | [], kv => [(kv.1, [kv.2])]
  | (k, vs) :: rest, kv =>
    if k = kv.1 then (k, vs ++ [kv.2]) :: rest else (k, vs) :: addPair rest kv

/-- `urllib.parse.parse_qs(qs)`. -/
def parse_qs (qs : String) : List (String × List String) := (parse_qsl qs).foldl addPair []

/-- `parsed.get(k, [None])[0]`: the first value stored under a key. -/
def qsGet (parsed : List (String × List String)) (k : String) : Option String :=
  match parsed.find? (fun p => p.1 = k) with
  | some (_, v :: _) => some v
  | some (_, []) => none
  | none => none

/-! ## Python `int(...)` on strings

Models the ASCII fragment of CPython's `int`: surrounding ASCII whitespace,
an optional sign, decimal digits with single underscores allowed between
digits.  (Unicode digit classes and non-ASCII whitespace accepted by CPython
are outside the model; no theorem below depends on them.) -/

def isAsciiDigit (c : Char) : Bool := '0' ≤ c && c ≤ '9'

def isPySpace (c : Char) : Bool :=
  c = ' ' || c = '\t' || c = '\n' || c = '\x0d' || c = '\x0b' || c = '\x0c'

/-- Digits (with single interior underscores) to a number; the caller has
checked that the first character is a digit. -/
def pyIntDigits (acc : Nat) : List Char → Option Nat
  | [] => some acc
  | c :: rest =>
    if isAsciiDigit c then pyIntDigits (10 * acc + (c.toNat - 48)) rest
    else if c = '_' then
      match rest with
      | d :: rest2 => if isAsciiDigit d then pyIntDigits (10 * acc + (d.toNat - 48)) rest2 else none
      | [] => none
    else none

/-- `int(s)`, `Option`-valued (`none` models a raised `ValueError`). -/
def pyInt (s : String) : Option Int :=
  let l := ((s.data.dropWhile isPySpace).reverse.dropWhile isPySpace).reverse
  match l with
  | '+' :: d :: rest =>
    if isAsciiDigit d then (pyIntDigits 0 (d :: rest)).map Int.ofNat else none
  | '-' :: d :: rest =>
    if isAsciiDigit d then (pyIntDigits 0 (d :: rest)).map (fun n => -(n : Int)) else none
  | d :: rest =>
    if isAsciiDigit d then (pyIntDigits 0 (d :: rest)).map Int.ofNat else none
  | [] => none

/-! ## `json.loads` model

A recursive-descent parser for the JSON fragment the handlers exchange:
`null`, booleans, integer numbers, strings with the simple escapes, arrays
and objects.  (Floats, exponent notation and `\\u` escapes are outside the
model; a parse failure — CPython's raised `JSONDecodeError` — is `none`.) -/

mutual

inductive Json where
  | null : Json
  | bool : Bool → Json
  | num : Int → Json
  | str : String → Json
  | arr : JsonList → Json
  | obj : JsonFields → Json
deriving DecidableEq

inductive JsonList where
  | nil : JsonList
  | cons : Json → JsonList → JsonList
deriving DecidableEq

inductive JsonFields where
  | nil : JsonFields
  | cons : String → Json → JsonFields → JsonFields
deriving DecidableEq

end

/-- Python truthiness of a decoded JSON value. -/
def pyTruthy : Json → Bool
  | .null => false
  | .bool b => b
  | .num n => n != 0
  | .str s => s != ""
  | .arr .nil => false
  | .arr (.cons _ _) => true
  | .obj .nil => false
  | .obj (.cons _ _ _) => true

/-- `d.get(k)` on a decoded JSON object.  `json.loads` builds a `dict`, so a
duplicated key keeps its last value: later fields win. -/
def jsonObjGet : JsonFields → String → Option Json
  | .nil, _ => none
  | .cons k v rest, key =>
    match jsonObjGet rest key with
    | some r => some r
    | none => if k = key then some v else none

def jsonSkipWs (l : List Char) : List Char :=
  l.dropWhile (fun c => c = ' ' || c = '\t' || c = '\n' || c = '\x0d')

/-- JSON string body after the opening quote. -/
def jsonParseString : Nat → List Char → Option (String × List Char) :=
  go []
where
  go (acc : List Char) : Nat → List Char → Option (String × List Char)
    | 0, _ => none
    | _, [] => none
    | fuel + 1, c :: rest =>
      if c = '"' then some (String.mk acc.reverse, rest)
      else if c = '\\' then
        match rest with
        | e :: rest2 =>
          let esc : Option Char :=
            if e = '"' then some '"'
            else if e = '\\' then some '\\'
            else if e = '/' then some '/'
            else if e = 'n' then some '\n'
            else if e = 't' then some '\t'
            else if e = 'r' then some '\x0d'
            else if e = 'b' then some '\x08'
            else if e = 'f' then some '\x0c'
            else none
          match esc with
          | some d => go (d :: acc) fuel rest2
          | none => none
        | [] => none
      else go (c :: acc) fuel rest

/-- Integer literal (an optional minus sign then digits); JSON forbids
leading `+`, underscores and whitespace inside numbers. -/
def jsonParseInt (l : List Char) : Option (Int × List Char) :=
  let core (l : List Char) : Option (Nat × List Char) :=
    let ds := l.takeWhile isAsciiDigit
    if ds = [] then none
    else some (ds.foldl (fun a c => 10 * a + (c.toNat - 48)) 0, l.dropWhile isAsciiDigit)
  match l with
  | '-' :: rest => (core rest).map (fun p => (-(p.1 : Int), p.2))
  | _ => (core l).map (fun p => ((p.1 : Int), p.2))

mutual

/-- One JSON value. -/
def jsonParseVal : Nat → List Char → Option (Json × List Char)
  | 0, _ => none
  | fuel + 1, l =>
    match jsonSkipWs l with
    | 'n' :: 'u' :: 'l' :: 'l' :: r => some (.null, r)
    | 't' :: 'r' :: 'u' :: 'e' :: r => some (.bool true, r)
    | 'f' :: 'a' :: 'l' :: 's' :: 'e' :: r => some (.bool false, r)
    | '"' :: r => (jsonParseString (r.length + 1) r).map (fun p => (.str p.1, p.2))
    | '[' :: r =>
      (match jsonSkipWs r with
       | ']' :: r2 => some (.arr .nil, r2)
       | r2 => (jsonParseElems fuel r2).map (fun p => (.arr p.1, p.2)))
    | '{' :: r =>
      (match jsonSkipWs r with
       | '}' :: r2 => some (.obj .nil, r2)
       | r2 => (jsonParseFields fuel r2).map (fun p => (.obj p.1, p.2)))
    | r => (jsonParseInt r).map (fun p => (.num p.1, p.2))

/-- Comma-separated values then `]`. -/
def jsonParseElems : Nat → List Char → Option (JsonList × List Char)
  | 0, _ => none
  | fuel + 1, l =>
    match jsonParseVal fuel l with
    | none => none
    | some (v, r) =>
      match jsonSkipWs r with
      | ',' :: r2 => (jsonParseElems fuel r2).map (fun p => (.cons v p.1, p.2))
      | ']' :: r2 => some (.cons v .nil, r2)
      | _ => none

/-- Comma-separated `"key": value` pairs then `}`. -/
def jsonParseFields : Nat → List Char → Option (JsonFields × List Char)
  | 0, _ => none
  | fuel + 1, l =>
    match jsonSkipWs l with
    | '"' :: r =>
      match jsonParseString (r.length + 1) r with
      | none => none
      | some (k, r2) =>
        match jsonSkipWs r2 with
        | ':' :: r3 =>
          match jsonParseVal fuel r3 with
          | none => none
          | some (v, r4) =>
            match jsonSkipWs r4 with
            | ',' :: r5 => (jsonParseFields fuel r5).map (fun p => (.cons k v p.1, p.2))
            | '}' :: r5 => some (.cons k v .nil, r5)
            | _ => none
        | _ => none
    | _ => none

end

/-- `json.loads(s)`, `Option`-valued (`none` models a raised exception). -/
def json_loads (s : String) : Option Json :=
  match jsonParseVal (s.length + 2) s.data with
  | some (v, rest) => if jsonSkipWs rest = [] then some v else none
  | none => none

/-! ## `verify_telegram_init_data` (api.py lines 24–99)

`datetime.now().timestamp()` is the explicit `now` parameter and the
`config.BOT_TOKEN` global is the explicit `botToken` parameter.  The result
`(False, None)` is `none`; `(True, data)` is `some data`.  `hmac.compare_digest`
is modelled as string equality: it raises `TypeError` for a non-ASCII argument,
but the computed digest is ASCII hex, so the comparison result — through the
`except` that maps any raised error to `(False, None)` — coincides with
equality on every input. -/

/-- The verified-session snapshot returned on success. -/
structure VerifiedData where
  user : Option Json
  auth_date : Option String
  query_id : Option String
  chat_type : Option String
  chat_instance : Option String
deriving DecidableEq

/-- Lexicographic order on code points — Python's `<` on `str`. -/
def lexLt : List Char → List Char → Bool
  | [], [] => false
  | [], _ :: _ => true
  | _ :: _, [] => false
  | a :: as, b :: bs =>
    if a.toNat < b.toNat then true
    else if b.toNat < a.toNat then false
    else lexLt as bs

def strLt (s t : String) : Bool := lexLt s.data t.data

/-- Sort the `key=value` lines (`data_pairs.sort()`); insertion into a sorted
list by code-point order, which is Python's string ordering. -/
def insertSorted (s : String) : List String → List String
  | [] => [s]
  | t :: ts => if strLt t s then t :: insertSorted s ts else s :: t :: ts

def sortStrings (l : List String) : List String := l.foldr insertSorted []

def joinNl : List String → String
  | [] => ""
  | [s] => s
  | s :: rest => s ++ "\n" ++ joinNl rest

/-- The `data_check_string`: every non-`hash` key mapped to
`key=values[0]`, lines sorted, joined with newlines. -/
def dataCheckString (parsed : List (String × List String)) : String :=
  joinNl (sortStrings ((parsed.filter (fun p => p.1 ≠ "hash")).map
    (fun p => p.1 ++ "=" ++ p.2.headD "")))

/-- `hmac.new(b'WebAppData', BOT_TOKEN.encode('utf-8'), hashlib.sha256).digest()`. -/
def telegramSecretKey (botToken : String) : List Nat :=
  hmacSha256 (utf8Encode "WebAppData") (utf8Encode botToken)

/-- The `auth_date` step: absent or empty is skipped; a string that `int()`
rejects raises (→ `Invalid`); an age over 86400 seconds is `Invalid`. -/
def authDateStep (now : Int) (auth_date_str : Option String) : Bool :=
  match auth_date_str with
  | none => true
  | some s =>
    if s = "" then true
    else
      match pyInt s with
      | none => false
      | some d => decide (now - d ≤ 86400)

/-- The `user` step: absent or empty is skipped (`user_data = None`); a string
`json.loads` rejects raises (→ `Invalid`). -/
def userStep (user_str : Option String) : Option (Option Json) :=
  match user_str with
  | none => some none
  | some s =>
    if s = "" then some none
    else
      match json_loads s with
      | none => none
      | some j => some (some j)

/-- `verify_telegram_init_data(init_data)` from api.py lines 24–99. -/
def verify_telegram_init_data (botToken : String) (now : Int) (init_data : String) :
    Option VerifiedData :=
  if init_data = "" then none
  else
    let parsed := parse_qs init_data
    match qsGet parsed "hash" with
    | none => none
    | some received_hash =>
      if received_hash = "" then none
      else
        let calculated_hash := hmacHex (telegramSecretKey botToken)
          (utf8Encode (dataCheckString parsed))
        if calculated_hash ≠ received_hash then none
        else
          let auth_date_str := qsGet parsed "auth_date"
          if ¬ authDateStep now auth_date_str then none
          else
            match userStep (qsGet parsed "user") with
            | none => none
            | some user_data =>
              some { user := user_data
                     auth_date := auth_date_str
                     query_id := qsGet parsed "query_id"
                     chat_type := qsGet parsed "chat_type"
                     chat_instance := qsGet parsed "chat_instance" }

/-! ## `get_user_id_from_request` (api.py lines 102–137) -/

deriving instance DecidableEq for Except

/-- The parts of an inbound request the embedded handlers read. -/
structure Request where
  /-- `X-Telegram-Init-Data` header (`none` when absent). -/
  initDataHeader : Option String
  /-- `X-User-Id` header. -/
  xUserIdHeader : Option String
  /-- `user_id` query parameter. -/
  userIdQuery : Option String
deriving DecidableEq

/-- `data['user'].get('id')` — `.get` on a non-`dict` value raises
`AttributeError`, which `get_user_id_from_request` does not catch. -/
def userIdOfUser (u : Json) : Except Unit (Option Json) :=
  match u with
  | .obj fs => .ok (jsonObjGet fs "id")
  | _ => .error ()

/-- `get_user_id_from_request(request)`: `X-Telegram-Init-Data` first (only a
valid blob with a truthy `user` short-circuits, returning `user.get('id')`),
then the `X-User-Id` header, then the `user_id` query parameter, else `None`.
`Except.error` models an uncaught exception escaping to the handler. -/
def get_user_id_from_request (botToken : String) (now : Int) (req : Request) :
    Except Unit (Option Json) :=
  let fromInit : Option (Except Unit (Option Json)) :=
    if req.initDataHeader.getD "" = "" then none
    else
      match verify_telegram_init_data botToken now (req.initDataHeader.getD "") with
      | none => none
      | some data =>
        match data.user with
        | none => none
        | some u => if pyTruthy u then some (userIdOfUser u) else none
  match fromInit with
  | some r => r
  | none =>
    match (match req.xUserIdHeader with
           | some h => if h = "" then none else pyInt h
           | none => none) with
    | some n => .ok (some (.num n))
    | none =>
      match (match req.userIdQuery with
             | some q => if q = "" then none else pyInt q
             | none => none) with
      | some n => .ok (some (.num n))
      | none => .ok none

/-! ## Repository model

`database.py` is not among the sources; the user row and the primitives the
handlers call on `db` are modelled from the spec (§3 data model, §4.3/§4.5
contracts, §5/§9 on the deduction's atomicity). -/

/-- A user row (§3): balances, moderation flags and the violation counter.
Balances are `Int` because the storage layer is integer-typed and nothing in
the modelled write path clamps them at zero. -/
structure User where
  username : String
  requests_left : Int
  premium_requests : Int
  is_banned : Bool
  agreed_rules : Bool
  forbidden_attempts : Nat
deriving DecidableEq

/-- One history row as `db.add_history` receives it.  The source serialises
`cards` with `json.dumps`; the model keeps the list itself. -/
structure HistoryEntry where
  user_id : Int
  question : String
  cards : List String
  response : String
  reading_type : String
  is_premium : Bool
deriving DecidableEq

/-- The database: user rows keyed by id, history newest-first. -/
structure DB where
  users : List (Int × User)
  history : List HistoryEntry
deriving DecidableEq

/-- Modelled from the spec: `db.get_user(user_id)` returns the user's row or
`None`. -/
def db_get_user (db : DB) (uid : Int) : Option User :=
  (db.users.find? (fun p => p.1 = uid)).map (fun p => p.2)

/-- Point update of one user row (no-op when the row is absent, as an SQL
`UPDATE` with no matching row). -/
def dbUpdateUser (db : DB) (uid : Int) (f : User → User) : DB :=
  { db with users := db.users.map (fun p => if p.1 = uid then (p.1, f p.2) else p) }

/-- Modelled from the spec (§4.2): `db.increment_forbidden_attempts(user_id)`
adds 1 to the per-user violation counter. -/
def db_increment_forbidden_attempts (db : DB) (uid : Int) : DB :=
  dbUpdateUser db uid (fun u => { u with forbidden_attempts := u.forbidden_attempts + 1 })

/-- Modelled from the spec: `db.use_free_request(user_id)` decrements the free
balance by exactly one.  Per §9 the source's decrement is unconditional — it
does not re-check the balance atomically — which is what this models. -/
def db_use_free_request (db : DB) (uid : Int) : DB :=
  dbUpdateUser db uid (fun u => { u with requests_left := u.requests_left - 1 })

/-- Modelled from the spec: `db.use_premium_request(user_id)` decrements the
premium balance by exactly one, unconditionally (§9). -/
def db_use_premium_request (db : DB) (uid : Int) : DB :=
  dbUpdateUser db uid (fun u => { u with premium_requests := u.premium_requests - 1 })

/-- Modelled from the spec (§4.5): `db.get_history(user_id, limit, offset)`
returns the user's interactions ordered by recency, sliced by
`offset`/`limit`.  Negative arguments do not arise under the claims. -/
def db_get_history (db : DB) (uid : Int) (limit offset : Int) : List HistoryEntry :=
  (((db.history.filter (fun h => h.user_id = uid)).drop offset.toNat).take limit.toNat)

/-- Modelled from the spec: `db.get_total_history_count(user_id)`. -/
def db_get_total_history_count (db : DB) (uid : Int) : Nat :=
  (db.history.filter (fun h => h.user_id = uid)).length

/-- Modelled from the spec (§4.5): `db.add_history(...)` is a pure append. -/
def db_add_history (db : DB) (e : HistoryEntry) : DB :=
  { db with history := e :: db.history }

/-! ## `handle_reading` (api.py lines 289–428)

The handler is split at its `await get_tarot_response(...)` suspension point
into `handle_reading_pre` (identity, validation, policy filter, balance
pre-check, card selection, context building — everything before the
generation call) and `handle_reading_post` (usability check of the response,
interpretation extraction, deduction, history append).  The sequential
handler is their composition; the split is what lets §5's interleavings be
stated.  External collaborators are parameters: `forbidden` is
`config.FORBIDDEN_KEYWORDS.search` (a precompiled pattern set, §4.2),
`genCards` the backend card generator `utils.generate_tarot_cards`, and the
generation response is passed to `handle_reading_post` by the scheduler. -/

/-- `check_forbidden_keywords(text)` from api.py lines 140–144, over the
abstract pattern set. -/
def check_forbidden_keywords (forbidden : String → Bool) (text : String) : Bool :=
  forbidden text

/-- Python `str.strip()` on its ASCII whitespace fragment. -/
def pyStrip (s : String) : String :=
  String.mk ((s.data.dropWhile isPySpace).reverse.dropWhile isPySpace).reverse

/-- The parsed POST body of `/api/reading`. -/
structure ReadingBody where
  question : String
  reading_type : String
  use_premium : Bool
  cards : List String
deriving DecidableEq

/-- Modelled from the spec: the response object of the external generation
collaborator (`ohmygpt_api.get_tarot_response`), an opaque JSON-like object
from which the handler reads only truthiness and the
`response['choices'][0]['message']['content']` chain; an association of the
top-level keys to the extracted text models exactly that access. -/
abbrev GenResponse := List (String × String)

/-- The handler's outcome: an error response (status, `error` field) or the
success payload. -/
inductive ReadingResult where
  | err : Nat → String → ReadingResult
  | ok : List String → String → String → Bool → ReadingResult
deriving DecidableEq

/-- What survives the suspension at the generation call. -/
structure ReadingCtx where
  uid : Int
  question : String
  reading_type : String
  use_premium : Bool
  cards : List String
deriving DecidableEq

/-- Result of the pre-generation phase. -/
inductive Seg1Out where
  | early : ReadingResult → DB → Seg1Out
  | proceed : ReadingCtx → DB → Seg1Out
deriving DecidableEq

/-- The integer key a resolved id value selects in the user table (a non-`num`
id never matches a row). -/
def uidKey : Option Json → Option Int
  | some (.num n) => some n
  | _ => none

/-- Everything `handle_reading` does before `await get_tarot_response(...)`:
identity resolution, question validation, the forbidden-keyword check (with
its violation-counter side effect), user lookup, the balance pre-check and
card selection. -/
def handle_reading_pre (botToken : String) (now : Int) (forbidden : String → Bool)
    (genCards : List String) (db : DB) (req : Request) (body : ReadingBody) : Seg1Out :=
  match get_user_id_from_request botToken now req with
  | .error _ => .early (.err 500 "internal") db
  | .ok uidv =>
    if !(uidv.map pyTruthy).getD false then
      .early (.err 401 "Unauthorized") db
    else
      let question := pyStrip body.question
      if question = "" then .early (.err 400 "Question is required") db
      else if 300 < question.length then .early (.err 400 "Question too long (max 300 chars)") db
      else if check_forbidden_keywords forbidden question then
        .early (.err 400 "forbidden_keywords")
          (match uidKey uidv with
           | some n => db_increment_forbidden_attempts db n
           | none => db)
      else
        match uidKey uidv >>= fun n => (db_get_user db n).map (fun u => (n, u)) with
        | none => .early (.err 404 "User not found") db
        | some (n, user) =>
          if body.use_premium then
            if user.premium_requests ≤ 0 then .early (.err 400 "no_premium_requests") db
            else .proceed ⟨n, question, body.reading_type, body.use_premium,
                           if body.cards ≠ [] then body.cards else genCards⟩ db
          else
            if user.requests_left ≤ 0 then .early (.err 400 "no_free_requests") db
            else .proceed ⟨n, question, body.reading_type, body.use_premium,
                           if body.cards ≠ [] then body.cards else genCards⟩ db

/-- `if not response` — `None` and an empty object are both unusable. -/
def genUsable : Option GenResponse → Bool
  | none => false
  | some r => r ≠ []

/-- Everything `handle_reading` does after the generation call returns:
503 on an unusable response, interpretation extraction (empty when the
`choices` key is missing), deduction from the chosen balance, history
append, success payload. -/
def handle_reading_post (ctx : ReadingCtx) (response : Option GenResponse) (db : DB) :
    ReadingResult × DB :=
  if ¬ genUsable response then (.err 503 "AI service unavailable", db)
  else
    let interpretation :=
      match (response.getD []).find? (fun p => p.1 = "choices") with
      | some p => p.2
      | none => ""
    let db1 := if ctx.use_premium then db_use_premium_request db ctx.uid
               else db_use_free_request db ctx.uid
    let db2 := db_add_history db1
      ⟨ctx.uid, ctx.question, ctx.cards, interpretation, ctx.reading_type, ctx.use_premium⟩
    (.ok ctx.cards interpretation ctx.reading_type ctx.use_premium, db2)

/-- The sequential `handle_reading`: the pre-phase, then — when it reaches the
generation call — the post-phase on the response. -/
def handle_reading (botToken : String) (now : Int) (forbidden : String → Bool)
    (genCards : List String) (response : Option GenResponse) (db : DB) (req : Request)
    (body : ReadingBody) : ReadingResult × DB :=
  match handle_reading_pre botToken now forbidden genCards db req body with
  | .early r db1 => (r, db1)
  | .proceed ctx db1 => handle_reading_post ctx response db1

/-- Two concurrent `/api/reading` requests interleaved as §5 allows: each
request suspends at its generation call, so both pre-phases can run before
either post-phase.  When a pre-phase finishes early its request is done and
the other simply runs to completion. -/
def handle_reading_race (botToken : String) (now : Int) (forbidden : String → Bool)
    (genCards : List String) (respA respB : Option GenResponse) (db : DB)
    (reqA reqB : Request) (bodyA bodyB : ReadingBody) :
    ReadingResult × ReadingResult × DB :=
  match handle_reading_pre botToken now forbidden genCards db reqA bodyA with
  | .early rA db1 =>
    let (rB, db2) := handle_reading botToken now forbidden genCards respB db1 reqB bodyB
    (rA, rB, db2)
  | .proceed ctxA db1 =>
    match handle_reading_pre botToken now forbidden genCards db1 reqB bodyB with
    | .early rB db2 =>
      let (rA, db3) := handle_reading_post ctxA respA db2
      (rA, rB, db3)
    | .proceed ctxB db2 =>
      let (rA, db3) := handle_reading_post ctxA respA db2
      let (rB, db4) := handle_reading_post ctxB respB db3
      (rA, rB, db4)

/-! ## `handle_history` pagination (api.py lines 431–473) -/

/-- The `pagination` object of the `/api/history` response. -/
structure Pagination where
  page : Int
  limit : Int
  total : Nat
  total_pages : Int
deriving DecidableEq

/-- `(total + limit - 1) // limit if total > 0 else 1` — Python `//` is
floor division. -/
def history_total_pages (total : Nat) (limit : Int) : Int :=
  if 0 < total then Int.fdiv ((total : Int) + limit - 1) limit else 1

/-- The data part of `handle_history`: parse `page`/`limit` (an unparseable
value raises, caught as a 500 → `error`), slice the history at
`offset = page * limit`, and build the pagination object. -/
def handle_history_core (db : DB) (uid : Int) (pageS limitS : Option String) :
    Except Unit (List HistoryEntry × Pagination) :=
  match (match pageS with | none => some 0 | some s => pyInt s),
        (match limitS with | none => some 10 | some s => pyInt s) with
  | some page, some limit =>
    let offset := page * limit
    let history := db_get_history db uid limit offset
    let total := db_get_total_history_count db uid
    .ok (history, ⟨page, limit, total, history_total_pages total limit⟩)
  | _, _ => .error ()

/-! ## Claim-side definitions

`claimCheckString` renders the check-string the way claim C1's words build
it — *every* non-`hash` key/value pair — to be compared against the source's
`dataCheckString`, which uses only the first value stored under each key. -/

/-- The canonical check-string as C1's words describe it: every non-`hash`
key/value pair of the blob formatted `key=value`, lines sorted, joined with
newlines. -/
def claimCheckString (init_data : String) : String :=
  joinNl (sortStrings (((parse_qsl init_data).filter (fun p => p.1 ≠ "hash")).map
    (fun p => p.1 ++ "=" ++ p.2)))

/-- The hash C1's words prescribe over `claimCheckString`. -/
def claimHash (botToken init_data : String) : String :=
  hmacHex (telegramSecretKey botToken) (utf8Encode (claimCheckString init_data))

/-- A concrete bot token used by the concrete instances below. -/
def sampleToken : String := "123456:TESTTOKEN"

/-! ## Helper lemmas -/

theorem sha256Compress_ne_nil (h block : List Nat) : sha256Compress h block ≠ [] := by
  simp [sha256Compress]

theorem foldl_sha256Compress_ne_nil (blocks : List (List Nat)) (h : List Nat) (hh : h ≠ []) :
    blocks.foldl sha256Compress h ≠ [] := by
  induction blocks generalizing h with
  | nil => simpa using hh
  | cons b bs ih => exact ih _ (sha256Compress_ne_nil _ _)

theorem flatMapL_be32_ne_nil (l : List Nat) (hl : l ≠ []) : flatMapL be32 l ≠ [] := by
  cases l with
  | nil => exact absurd rfl hl
  | cons a as => simp [flatMapL, be32]

theorem sha256_ne_nil (m : List Nat) : sha256 m ≠ [] := by
  unfold sha256
  exact flatMapL_be32_ne_nil _
    (foldl_sha256Compress_ne_nil _ _ (by decide))

theorem flatMapL_hexByte_ne_nil (l : List Nat) (hl : l ≠ []) : flatMapL hexByte l ≠ [] := by
  cases l with
  | nil => exact absurd rfl hl
  | cons a as => simp [flatMapL, hexByte]

theorem hmacHex_ne_empty (k m : List Nat) : hmacHex k m ≠ "" := by
  unfold hmacHex hexDigest
  intro hc
  have hd : flatMapL hexByte (hmacSha256 k m) = [] := by
    have := congrArg String.data hc
    simpa using this
  exact flatMapL_hexByte_ne_nil _ (by unfold hmacSha256; exact sha256_ne_nil _) hd

/-- The success conditions of `verify_telegram_init_data`, given that the blob
parses to a `hash` field: the received hash must equal the HMAC hex digest of
the source's check-string, the `auth_date` step must pass for `now`, and the
`user` step must parse. -/
theorem verify_isSome_iff (tok : String) (now : Int) (b received : String)
    (hh : qsGet (parse_qs b) "hash" = some received) :
    (verify_telegram_init_data tok now b).isSome ↔
      (received = hmacHex (telegramSecretKey tok) (utf8Encode (dataCheckString (parse_qs b)))
        ∧ authDateStep now (qsGet (parse_qs b) "auth_date") = true
        ∧ (userStep (qsGet (parse_qs b) "user")).isSome) := by
  by_cases hb : b = ""
  · subst hb
    rw [show qsGet (parse_qs "") "hash" = none from by decide] at hh
    exact Option.noConfusion hh
  · simp only [verify_telegram_init_data, if_neg hb, hh]
    by_cases hr0 : received = ""
    · subst hr0
      rw [if_pos rfl]
      simp only [Option.isSome_none, Bool.false_eq_true, false_iff]
      rintro ⟨h1, -, -⟩
      exact hmacHex_ne_empty _ _ h1.symm
    · rw [if_neg hr0]
      by_cases hcal :
          hmacHex (telegramSecretKey tok) (utf8Encode (dataCheckString (parse_qs b))) = received
      · rw [if_neg (by simpa using hcal)]
        by_cases had : authDateStep now (qsGet (parse_qs b) "auth_date") = true
        · rw [if_neg (by simpa using had)]
          cases hu : userStep (qsGet (parse_qs b) "user") with
          | none => simp [hu, hcal.symm, had]
          | some ud => simp [hu, hcal.symm, had]
        · rw [if_pos (by simpa using had)]
          simp [had]
      · rw [if_pos (by simpa using hcal)]
        simp only [Option.isSome_none, Bool.false_eq_true, false_iff]
        rintro ⟨h1, -, -⟩
        exact hcal h1.symm

/-- A successful verification implies the blob parsed to a `hash` field. -/
theorem verify_isSome_exists_hash (tok : String) (now : Int) (b : String)
    (h : (verify_telegram_init_data tok now b).isSome) :
    ∃ received, qsGet (parse_qs b) "hash" = some received := by
  by_cases hb : b = ""
  · rw [hb] at h
    simp [verify_telegram_init_data] at h
  · simp only [verify_telegram_init_data, if_neg hb] at h
    cases hq : qsGet (parse_qs b) "hash" with
    | none => rw [hq] at h; simp at h
    | some received => exact ⟨received, rfl⟩

/-- `dataCheckString` only reads the non-`hash` pairs. -/
theorem dataCheckString_congr (p q : List (String × List String))
    (hagree : p.filter (fun kv => kv.1 ≠ "hash") = q.filter (fun kv => kv.1 ≠ "hash")) :
    dataCheckString p = dataCheckString q := by
  unfold dataCheckString
  rw [hagree]

/-! ## C1 -/

/-- **C1** (amended).  For every initData blob containing a `hash` field,
`verify_telegram_init_data` succeeds iff the supplied hash equals
hex(HMAC-SHA256) keyed with HMAC-SHA256(key="WebAppData",
message=signing_key) over the source's check-string — built from the *first*
value stored under each distinct non-`hash` key, sorted, newline-joined —
and additionally any present `auth_date` passes the freshness step and any
present `user` value parses as JSON.  Moreover the hash is binding: a blob
whose non-`hash` pairs parse identically but whose supplied hash differs in
any way (in particular in a single character) is `Invalid`. -/
theorem C1_verify_success_iff (tok : String) (now : Int) (b received : String)
    (hh : qsGet (parse_qs b) "hash" = some received) :
    ((verify_telegram_init_data tok now b).isSome ↔
      (received = hmacHex (telegramSecretKey tok) (utf8Encode (dataCheckString (parse_qs b)))
        ∧ authDateStep now (qsGet (parse_qs b) "auth_date") = true
        ∧ (userStep (qsGet (parse_qs b) "user")).isSome))
    ∧ (∀ b2 h2, (parse_qs b2).filter (fun kv => kv.1 ≠ "hash")
          = (parse_qs b).filter (fun kv => kv.1 ≠ "hash") →
        qsGet (parse_qs b2) "hash" = some h2 → h2 ≠ received →
        (verify_telegram_init_data tok now b).isSome →
        verify_telegram_init_data tok now b2 = none) := by
  refine ⟨verify_isSome_iff tok now b received hh, ?_⟩
  intro b2 h2 hagree hh2 hne hsome
  have hrec := ((verify_isSome_iff tok now b received hh).mp hsome).1
  have hdcs : dataCheckString (parse_qs b2) = dataCheckString (parse_qs b) :=
    dataCheckString_congr _ _ hagree
  cases hv : verify_telegram_init_data tok now b2 with
  | none => rfl
  | some d =>
    have h2some : (verify_telegram_init_data tok now b2).isSome := by rw [hv]; rfl
    have := ((verify_isSome_iff tok now b2 h2 hh2).mp h2some).1
    rw [hdcs] at this
    exact absurd (this.trans hrec.symm) hne

/-- Witness for C1: a concrete blob with a valid hash — the theorem's
hypothesis holds and verification succeeds. -/
theorem C1_witness :
    qsGet (parse_qs "query_id=5&hash=9d39fad567d9315694df7550677f1937062186a10508531d134fc8c5e871573a") "hash"
      = some "9d39fad567d9315694df7550677f1937062186a10508531d134fc8c5e871573a"
    ∧ (verify_telegram_init_data sampleToken 0
        "query_id=5&hash=9d39fad567d9315694df7550677f1937062186a10508531d134fc8c5e871573a").isSome
    ∧ ((verify_telegram_init_data sampleToken 0
          "query_id=5&hash=9d39fad567d9315694df7550677f1937062186a10508531d134fc8c5e871573a").isSome ↔
        ("9d39fad567d9315694df7550677f1937062186a10508531d134fc8c5e871573a"
            = hmacHex (telegramSecretKey sampleToken)
                (utf8Encode (dataCheckString (parse_qs
                  "query_id=5&hash=9d39fad567d9315694df7550677f1937062186a10508531d134fc8c5e871573a")))
          ∧ authDateStep 0 (qsGet (parse_qs
              "query_id=5&hash=9d39fad567d9315694df7550677f1937062186a10508531d134fc8c5e871573a") "auth_date") = true
          ∧ (userStep (qsGet (parse_qs
              "query_id=5&hash=9d39fad567d9315694df7550677f1937062186a10508531d134fc8c5e871573a") "user")).isSome)) :=
  ⟨by decide, by decide,
   (C1_verify_success_iff sampleToken 0 _ _ (by decide)).1⟩

/-! ## C5 -/

/-- **C5** (amended).  For a blob whose signature verifies (the supplied hash
equals the HMAC hex digest of the check-string) and that carries a non-empty
`auth_date` parsing to the integer `d`, *and whose `user` step passes* (the
source also rejects a fresh token whose `user` field fails to parse),
`verify_telegram_init_data` accepts iff `now - d ≤ 86400`: it rejects exactly
the tokens older than 86400 seconds, so `auth_date = now - 86401` is rejected
and `auth_date = now - 86400` accepted. -/
theorem C5_auth_date_window (tok : String) (now : Int) (b received s : String) (d : Int)
    (hh : qsGet (parse_qs b) "hash" = some received)
    (hmatch : received = hmacHex (telegramSecretKey tok) (utf8Encode (dataCheckString (parse_qs b))))
    (had : qsGet (parse_qs b) "auth_date" = some s) (hs : s ≠ "") (hd : pyInt s = some d)
    (hu : (userStep (qsGet (parse_qs b) "user")).isSome) :
    (verify_telegram_init_data tok now b).isSome ↔ now - d ≤ 86400 := by
  rw [verify_isSome_iff tok now b received hh, had]
  simp [hmatch, hu, authDateStep, hs, hd]

/-- Witness for C5: the blob `auth_date=0&hash=…` with a valid hash — accepted
at `now = 86400`, rejected at `now = 86401`. -/
theorem C5_witness :
    pyInt "0" = some 0
    ∧ ((verify_telegram_init_data sampleToken 86400
          "auth_date=0&hash=9371385862f872e8d8c7d7805ee617bef7b4bedc71350169607098bb057d059d").isSome
        ↔ (86400 : Int) - 0 ≤ 86400)
    ∧ ((verify_telegram_init_data sampleToken 86401
          "auth_date=0&hash=9371385862f872e8d8c7d7805ee617bef7b4bedc71350169607098bb057d059d").isSome
        ↔ (86401 : Int) - 0 ≤ 86400)
    ∧ (verify_telegram_init_data sampleToken 86400
        "auth_date=0&hash=9371385862f872e8d8c7d7805ee617bef7b4bedc71350169607098bb057d059d").isSome
    ∧ verify_telegram_init_data sampleToken 86401
        "auth_date=0&hash=9371385862f872e8d8c7d7805ee617bef7b4bedc71350169607098bb057d059d" = none :=
  ⟨by decide,
   C5_auth_date_window sampleToken 86400
     "auth_date=0&hash=9371385862f872e8d8c7d7805ee617bef7b4bedc71350169607098bb057d059d"
     "9371385862f872e8d8c7d7805ee617bef7b4bedc71350169607098bb057d059d" "0" 0
     (by decide) (by decide) (by decide) (by decide) (by decide) (by decide),
   C5_auth_date_window sampleToken 86401
     "auth_date=0&hash=9371385862f872e8d8c7d7805ee617bef7b4bedc71350169607098bb057d059d"
     "9371385862f872e8d8c7d7805ee617bef7b4bedc71350169607098bb057d059d" "0" 0
     (by decide) (by decide) (by decide) (by decide) (by decide) (by decide),
   by decide, by decide⟩

/-- Counterexample to C5 as stated: `auth_date=0&user=x&hash=…` carries a
valid signature and a fresh `auth_date` (`now - 0 ≤ 86400` at `now = 86400`),
yet is rejected — because its `user` field fails to parse — so rejection is
*not* exactly `now - auth_date > 86400`. -/
theorem C5_counterexample :
    verify_telegram_init_data sampleToken 86400
        "auth_date=0&user=x&hash=79bca27518e03bbc8c50f17cf391af0fc672542d8330810bd46e179ff3159887" = none
    ∧ qsGet (parse_qs
        "auth_date=0&user=x&hash=79bca27518e03bbc8c50f17cf391af0fc672542d8330810bd46e179ff3159887") "hash"
        = some "79bca27518e03bbc8c50f17cf391af0fc672542d8330810bd46e179ff3159887"
    ∧ "79bca27518e03bbc8c50f17cf391af0fc672542d8330810bd46e179ff3159887"
        = hmacHex (telegramSecretKey sampleToken)
            (utf8Encode (dataCheckString (parse_qs
              "auth_date=0&user=x&hash=79bca27518e03bbc8c50f17cf391af0fc672542d8330810bd46e179ff3159887")))
    ∧ qsGet (parse_qs
        "auth_date=0&user=x&hash=79bca27518e03bbc8c50f17cf391af0fc672542d8330810bd46e179ff3159887") "auth_date"
        = some "0"
    ∧ (86400 : Int) - 0 ≤ 86400 :=
  ⟨by decide, by decide, by decide, by decide, by decide⟩

/-! ## C7 -/

/-- **C7** (confirmed).  `verify_telegram_init_data` is a total function of
its inputs — every input, however malformed, yields a result (`some` or
`none`) rather than an escaping exception — and the parse failures the source
raises inside its `try` are mapped to the `Invalid` result: a present
non-empty `auth_date` that `int()` rejects gives `Invalid`, and a present
non-empty `user` that `json.loads` rejects gives `Invalid`. -/
theorem C7_exceptions_mapped_to_invalid (tok : String) (now : Int) (b : String) :
    ((verify_telegram_init_data tok now b).isSome = true
      ∨ verify_telegram_init_data tok now b = none)
    ∧ (∀ s, qsGet (parse_qs b) "auth_date" = some s → s ≠ "" → pyInt s = none →
        verify_telegram_init_data tok now b = none)
    ∧ (∀ u, qsGet (parse_qs b) "user" = some u → u ≠ "" → json_loads u = none →
        verify_telegram_init_data tok now b = none) := by
  refine ⟨?_, ?_, ?_⟩
  · cases hv : verify_telegram_init_data tok now b with
    | none => exact Or.inr rfl
    | some d => exact Or.inl rfl
  · intro s hs hne hp
    cases hv : verify_telegram_init_data tok now b with
    | none => rfl
    | some d =>
      have hsome : (verify_telegram_init_data tok now b).isSome := by rw [hv]; rfl
      obtain ⟨received, hh⟩ := verify_isSome_exists_hash tok now b hsome
      have hads := ((verify_isSome_iff tok now b received hh).mp hsome).2.1
      rw [hs] at hads
      simp [authDateStep, hne, hp] at hads
  · intro u hu hne hjson
    cases hv : verify_telegram_init_data tok now b with
    | none => rfl
    | some d =>
      have hsome : (verify_telegram_init_data tok now b).isSome := by rw [hv]; rfl
      obtain ⟨received, hh⟩ := verify_isSome_exists_hash tok now b hsome
      have hus := ((verify_isSome_iff tok now b received hh).mp hsome).2.2
      rw [hu] at hus
      simp [userStep, hne, hjson] at hus

/-- Witness for C7: a non-integer `auth_date` and an unparseable `user` JSON
each map to `Invalid` on concrete blobs, and nothing is raised. -/
theorem C7_witness :
    (pyInt "zz" = none
      ∧ verify_telegram_init_data sampleToken 0 "auth_date=zz&hash=ab" = none)
    ∧ (json_loads "x" = none
      ∧ verify_telegram_init_data sampleToken 0 "user=x&hash=ab" = none) :=
  ⟨⟨by decide,
    (C7_exceptions_mapped_to_invalid sampleToken 0 "auth_date=zz&hash=ab").2.1 "zz"
      (by decide) (by decide) (by decide)⟩,
   ⟨by decide,
    (C7_exceptions_mapped_to_invalid sampleToken 0 "user=x&hash=ab").2.2 "x"
      (by decide) (by decide) (by decide)⟩⟩

/-! ## C9 -/

/-- The three ways the `X-Telegram-Init-Data` branch of
`get_user_id_from_request` can decline to answer: no header, a blob that does
not verify, or a verified blob whose `user` value is absent or falsy. -/
def initDataFallsThrough (tok : String) (now : Int) (req : Request) : Prop :=
  req.initDataHeader.getD "" = ""
  ∨ verify_telegram_init_data tok now (req.initDataHeader.getD "") = none
  ∨ (∃ d, verify_telegram_init_data tok now (req.initDataHeader.getD "") = some d
        ∧ (d.user.map pyTruthy).getD false = false)

/-- **C9** (amended).  Whenever the init-data branch falls through — header
absent, signature invalid, or a verified blob with an absent/falsy `user`
object — identity resolution does not reject: a parseable non-empty
`X-User-Id` header yields that id, and failing that, a parseable non-empty
`user_id` query parameter yields that id; no deployment-mode restriction
exists anywhere in the function.  (But a verified blob whose *truthy* `user`
object merely lacks an `id` makes the function return `None` without
consulting the direct-id channels — the counterexample.) -/
theorem C9_direct_id_path (tok : String) (now : Int) (req : Request)
    (hft : initDataFallsThrough tok now req) :
    (∀ s n, req.xUserIdHeader = some s → s ≠ "" → pyInt s = some n →
       get_user_id_from_request tok now req = .ok (some (.num n)))
    ∧ (∀ q n, (∀ s, req.xUserIdHeader = some s → s = "" ∨ pyInt s = none) →
       req.userIdQuery = some q → q ≠ "" → pyInt q = some n →
       get_user_id_from_request tok now req = .ok (some (.num n))) := by
  have hnone :
      (if req.initDataHeader.getD "" = "" then (none : Option (Except Unit (Option Json)))
       else
         match verify_telegram_init_data tok now (req.initDataHeader.getD "") with
         | none => none
         | some data =>
           match data.user with
           | none => none
           | some u => if pyTruthy u then some (userIdOfUser u) else none) = none := by
    rcases hft with h0 | hv | ⟨d, hv, hu⟩
    · rw [if_pos h0]
    · by_cases h0 : req.initDataHeader.getD "" = ""
      · rw [if_pos h0]
      · rw [if_neg h0, hv]
    · by_cases h0 : req.initDataHeader.getD "" = ""
      · rw [if_pos h0]
      · rw [if_neg h0, hv]
        cases hdu : d.user with
        | none => simp [hdu]
        | some u =>
          rw [hdu] at hu
          simp at hu
          simp [hdu, hu]
  constructor
  · intro s n hs hne hp
    simp only [get_user_id_from_request, hnone, hs]
    rw [if_neg hne, hp]
  · intro q n hmiss hq hne hp
    simp only [get_user_id_from_request, hnone, hq]
    have hhdr :
        (match req.xUserIdHeader with
         | some h => if h = "" then none else pyInt h
         | none => (none : Option Int)) = none := by
      cases hh : req.xUserIdHeader with
      | none => rfl
      | some h =>
        rcases hmiss h hh with h1 | h1
        · simp [h1]
        · simp [h1]
    rw [hhdr, if_neg hne, hp]

/-- Witness for C9: an invalid init-data header plus `X-User-Id: 123` resolves
to id 123. -/
theorem C9_witness :
    initDataFallsThrough sampleToken 0
      { initDataHeader := some "garbage", xUserIdHeader := some "123", userIdQuery := none }
    ∧ pyInt "123" = some 123
    ∧ get_user_id_from_request sampleToken 0
        { initDataHeader := some "garbage", xUserIdHeader := some "123", userIdQuery := none }
        = .ok (some (.num 123)) :=
  ⟨Or.inr (Or.inl (by decide)), by decide,
   (C9_direct_id_path sampleToken 0 _ (Or.inr (Or.inl (by decide)))).1 "123" 123 rfl
     (by decide) (by decide)⟩

/-- Counterexample to C9 as stated: a blob that verifies with the truthy user
object `{"a":1}` — which carries no `id` — together with a perfectly parseable
`X-User-Id: 123` header still resolves to `None`: the direct-id path is *not*
reachable for this request, so "identity resolution does not reject ... for
every request whose header verifies but carries no user id" is false. -/
theorem C9_counterexample :
    (verify_telegram_init_data sampleToken 0
        "user=\x7b\"a\":1\x7d&hash=888d210bc9d8729ba33a2faff682afb6920cae52b18345d9cb38bb0a3eb0cb23").map
          (fun d => d.user)
        = some (some (.obj (.cons "a" (.num 1) .nil)))
    ∧ jsonObjGet (.cons "a" (.num 1) .nil) "id" = none
    ∧ pyInt "123" = some 123
    ∧ get_user_id_from_request sampleToken 0
        { initDataHeader := some
            "user=\x7b\"a\":1\x7d&hash=888d210bc9d8729ba33a2faff682afb6920cae52b18345d9cb38bb0a3eb0cb23",
          xUserIdHeader := some "123", userIdQuery := none }
        = .ok none :=
  ⟨by decide, by decide, by decide, by decide⟩

/-! ## Shared concrete instances for the handler claims -/

def sampleUserRow : User :=
  { username := "u", requests_left := 1, premium_requests := 0,
    is_banned := false, agreed_rules := true, forbidden_attempts := 0 }

def sampleDB : DB := { users := [(1, sampleUserRow)], history := [] }

def sampleReq : Request := { initDataHeader := none, xUserIdHeader := some "1", userIdQuery := none }

def sampleBody : ReadingBody :=
  { question := "q", reading_type := "classic", use_premium := false, cards := ["A"] }

def noForbidden : String → Bool := fun _ => false

def forbiddenSample : String → Bool := fun s => s = "bad"

/-! ## More helper lemmas -/

theorem find_update (l : List (Int × User)) (uid : Int) (f : User → User) :
    (l.map (fun p => if p.1 = uid then (p.1, f p.2) else p)).find? (fun p => p.1 = uid)
      = (l.find? (fun p => p.1 = uid)).map (fun p => (p.1, f p.2)) := by
  induction l with
  | nil => rfl
  | cons p t ih =>
    by_cases hp : p.1 = uid
    · simp [List.find?_cons, hp]
    · simp [List.find?_cons, hp, ih]

/-- A point update is invisible to `db_get_user` except through `f`. -/
theorem db_get_user_update (db : DB) (uid : Int) (f : User → User) :
    db_get_user (dbUpdateUser db uid f) uid = (db_get_user db uid).map f := by
  unfold db_get_user dbUpdateUser
  simp only
  rw [find_update]
  cases db.users.find? (fun p => p.1 = uid) <;> simp

/-- The pre-generation phase never changes the database when it proceeds to
the generation call (its one write — the violation counter — always ends the
request early). -/
theorem handle_reading_pre_proceed_db (tok : String) (now : Int) (forbidden : String → Bool)
    (genCards : List String) (db : DB) (req : Request) (body : ReadingBody)
    (ctx : ReadingCtx) (db1 : DB)
    (hpre : handle_reading_pre tok now forbidden genCards db req body = .proceed ctx db1) :
    db1 = db := by
  unfold handle_reading_pre at hpre
  dsimp only at hpre
  repeat' split at hpre
  all_goals simp_all

/-! ## C2 -/

/-- **C2** (the race the spec forbids, exhibited).  A user with
`requests_left = 1` and two concurrent free readings, interleaved as §5
allows — both pre-checks run while both requests are suspended at the
generation call, then both deductions — makes *both* requests succeed and
drives the final balance to `-1`: the code does not produce "exactly one
success and one InsufficientBalance with final balance 0". -/
theorem C2_race_both_succeed_negative_balance :
    handle_reading_race sampleToken 0 noForbidden [] (some [("choices", "t")])
        (some [("choices", "t")]) sampleDB sampleReq sampleReq sampleBody sampleBody
      = (.ok ["A"] "t" "classic" false, .ok ["A"] "t" "classic" false,
         { users := [(1, { sampleUserRow with requests_left := -1 })],
           history := [⟨1, "q", ["A"], "t", "classic", false⟩,
                       ⟨1, "q", ["A"], "t", "classic", false⟩] })
    ∧ ({ sampleUserRow with requests_left := -1 } : User).requests_left < 0 :=
  ⟨by decide, by decide⟩

/-! ## C3 -/

/-- **C3** (confirmed).  Whenever a `/api/reading` request reaches the
generation call and the call returns nothing usable (`None` or an empty
object), the handler answers 503 `AI service unavailable` and the database —
in particular both balances — is exactly what it was before the request. -/
theorem C3_failed_generation_no_deduction (tok : String) (now : Int)
    (forbidden : String → Bool) (genCards : List String) (db : DB) (req : Request)
    (body : ReadingBody) (ctx : ReadingCtx) (db1 : DB) (resp : Option GenResponse)
    (hpre : handle_reading_pre tok now forbidden genCards db req body = .proceed ctx db1)
    (hresp : genUsable resp = false) :
    handle_reading tok now forbidden genCards resp db req body
      = (.err 503 "AI service unavailable", db)
    ∧ db1 = db := by
  have hdb : db1 = db := handle_reading_pre_proceed_db tok now forbidden genCards db req body ctx db1 hpre
  refine ⟨?_, hdb⟩
  unfold handle_reading
  rw [hpre, hdb]
  unfold handle_reading_post
  rw [hresp]
  simp

/-- Witness for C3: the sample request reaches generation; a `None` response
leaves the sample database untouched and yields the 503. -/
theorem C3_witness :
    handle_reading_pre sampleToken 0 noForbidden [] sampleDB sampleReq sampleBody
      = .proceed ⟨1, "q", "classic", false, ["A"]⟩ sampleDB
    ∧ genUsable none = false
    ∧ handle_reading sampleToken 0 noForbidden [] none sampleDB sampleReq sampleBody
        = (.err 503 "AI service unavailable", sampleDB) :=
  ⟨by decide, by decide,
   (C3_failed_generation_no_deduction sampleToken 0 noForbidden [] sampleDB sampleReq
      sampleBody ⟨1, "q", "classic", false, ["A"]⟩ sampleDB none (by decide) (by decide)).1⟩

/-! ## C4 -/

/-- A banned user who has not agreed to the terms, one free unit left. -/
def bannedRow : User :=
  { username := "u", requests_left := 1, premium_requests := 0,
    is_banned := true, agreed_rules := false, forbidden_attempts := 0 }

def bannedDB : DB := { users := [(1, bannedRow)], history := [] }

/-- **C4** (the missing check, exhibited).  `handle_reading` contains no test
of `is_banned` or `agreed_rules` at all: a banned user who has not agreed to
the terms, with one free unit, gets a full successful reading — deduction,
history append and all — instead of the `Forbidden` rejection the claim
requires before any balance check. -/
theorem C4_banned_user_not_rejected :
    bannedRow.is_banned = true
    ∧ bannedRow.agreed_rules = false
    ∧ handle_reading sampleToken 0 noForbidden [] (some [("choices", "t")]) bannedDB
        sampleReq sampleBody
      = (.ok ["A"] "t" "classic" false,
         { users := [(1, { bannedRow with requests_left := 0 })],
           history := [⟨1, "q", ["A"], "t", "classic", false⟩] }) :=
  ⟨rfl, rfl, by decide⟩

/-! ## C6 -/

/-- **C6** (confirmed).  A valid question matching the forbidden pattern set
makes the handler answer 400 with the distinguishable code
`forbidden_keywords`, increment the user's violation counter by exactly one,
and leave `requests_left` and `premium_requests` (indeed every other field)
unchanged — no unit is consumed, whatever the generation response would have
been. -/
theorem C6_forbidden_question (tok : String) (now : Int) (forbidden : String → Bool)
    (genCards : List String) (resp : Option GenResponse) (db : DB) (req : Request)
    (body : ReadingBody) (uidv : Option Json) (n : Int) (u : User)
    (hres : get_user_id_from_request tok now req = .ok uidv)
    (htr : (uidv.map pyTruthy).getD false = true)
    (hkey : uidKey uidv = some n)
    (hu : db_get_user db n = some u)
    (hq : pyStrip body.question ≠ "")
    (hlen : ¬ 300 < (pyStrip body.question).length)
    (hforb : forbidden (pyStrip body.question) = true) :
    handle_reading tok now forbidden genCards resp db req body
      = (.err 400 "forbidden_keywords", db_increment_forbidden_attempts db n)
    ∧ db_get_user (db_increment_forbidden_attempts db n) n
        = some { u with forbidden_attempts := u.forbidden_attempts + 1 }
    ∧ ({ u with forbidden_attempts := u.forbidden_attempts + 1 } : User).requests_left
        = u.requests_left
    ∧ ({ u with forbidden_attempts := u.forbidden_attempts + 1 } : User).premium_requests
        = u.premium_requests := by
  refine ⟨?_, ?_, rfl, rfl⟩
  · unfold handle_reading handle_reading_pre
    rw [hres]
    simp only [htr, Bool.not_true, Bool.false_eq_true, if_false,
      check_forbidden_keywords, hforb, if_neg hq, if_neg hlen, hkey]
    simp
  · unfold db_increment_forbidden_attempts
    rw [db_get_user_update, hu]
    rfl

/-- Witness for C6: the question `" bad "` (trimmed to a forbidden term) on
the sample database — 400 `forbidden_keywords`, counter 0 → 1, balances
intact. -/
theorem C6_witness :
    get_user_id_from_request sampleToken 0 sampleReq = .ok (some (.num 1))
    ∧ forbiddenSample (pyStrip " bad ") = true
    ∧ (handle_reading sampleToken 0 forbiddenSample [] (some [("choices", "t")]) sampleDB
          sampleReq { question := " bad ", reading_type := "classic",
                      use_premium := false, cards := ["A"] }
        = (.err 400 "forbidden_keywords", db_increment_forbidden_attempts sampleDB 1)
      ∧ db_get_user (db_increment_forbidden_attempts sampleDB 1) 1
          = some { sampleUserRow with
                    forbidden_attempts := sampleUserRow.forbidden_attempts + 1 }
      ∧ ({ sampleUserRow with
            forbidden_attempts := sampleUserRow.forbidden_attempts + 1 } : User).requests_left
          = sampleUserRow.requests_left
      ∧ ({ sampleUserRow with
            forbidden_attempts := sampleUserRow.forbidden_attempts + 1 } : User).premium_requests
          = sampleUserRow.premium_requests) :=
  ⟨by decide, by decide,
   C6_forbidden_question sampleToken 0 forbiddenSample [] (some [("choices", "t")]) sampleDB
     sampleReq { question := " bad ", reading_type := "classic",
                 use_premium := false, cards := ["A"] }
     (some (.num 1)) 1 sampleUserRow
     (by decide) (by decide) (by decide) (by decide) (by decide) (by decide) (by decide)⟩

/-! ## C10 -/

/-- **C10** (confirmed).  When the generation call returns a non-empty
response object lacking a `choices` key, the handler still treats generation
as successful: it extracts the empty interpretation, deducts one unit from the
chosen balance, appends a history record with empty produced content, and
answers success with the empty interpretation. -/
theorem C10_response_without_choices (tok : String) (now : Int)
    (forbidden : String → Bool) (genCards : List String) (db : DB) (req : Request)
    (body : ReadingBody) (ctx : ReadingCtx) (db1 : DB) (r : GenResponse)
    (hpre : handle_reading_pre tok now forbidden genCards db req body = .proceed ctx db1)
    (hr : r ≠ []) (hch : r.find? (fun p => p.1 = "choices") = none) :
    handle_reading tok now forbidden genCards (some r) db req body
      = (.ok ctx.cards "" ctx.reading_type ctx.use_premium,
         db_add_history
           (if ctx.use_premium then db_use_premium_request db1 ctx.uid
            else db_use_free_request db1 ctx.uid)
           ⟨ctx.uid, ctx.question, ctx.cards, "", ctx.reading_type, ctx.use_premium⟩)
    ∧ (∀ u, db_get_user db1 ctx.uid = some u →
        db_get_user (db_use_free_request db1 ctx.uid) ctx.uid
          = some { u with requests_left := u.requests_left - 1 })
    ∧ (∀ u, db_get_user db1 ctx.uid = some u →
        db_get_user (db_use_premium_request db1 ctx.uid) ctx.uid
          = some { u with premium_requests := u.premium_requests - 1 }) := by
  refine ⟨?_, ?_, ?_⟩
  · unfold handle_reading
    rw [hpre]
    unfold handle_reading_post
    simp [genUsable, hr, hch]
  · intro u hu
    unfold db_use_free_request
    rw [db_get_user_update, hu]
    rfl
  · intro u hu
    unfold db_use_premium_request
    rw [db_get_user_update, hu]
    rfl

/-- Witness for C10: the response `{"x": "y"}` — non-empty, no `choices` —
succeeds with an empty interpretation and still costs the unit. -/
theorem C10_witness :
    handle_reading_pre sampleToken 0 noForbidden [] sampleDB sampleReq sampleBody
      = .proceed ⟨1, "q", "classic", false, ["A"]⟩ sampleDB
    ∧ ([("x", "y")] : GenResponse) ≠ []
    ∧ ([("x", "y")] : GenResponse).find? (fun p => p.1 = "choices") = none
    ∧ handle_reading sampleToken 0 noForbidden [] (some [("x", "y")]) sampleDB sampleReq
        sampleBody
      = (.ok ["A"] "" "classic" false,
         db_add_history (db_use_free_request sampleDB 1) ⟨1, "q", ["A"], "", "classic", false⟩) :=
  ⟨by decide, by decide, by decide,
   (C10_response_without_choices sampleToken 0 noForbidden [] sampleDB sampleReq sampleBody
      ⟨1, "q", "classic", false, ["A"]⟩ sampleDB [("x", "y")]
      (by decide) (by decide) (by decide)).1⟩

/-! ## C8 -/

/-- The pagination formula `(t + L - 1) // L` is the ceiling of `t / L` for a
positive total and positive limit. -/
theorem fdiv_add_sub_one_eq_ceil (t L : Int) (ht : 0 < t) (hL : 1 ≤ L) :
    Int.fdiv (t + L - 1) L = ⌈(t : ℚ) / (L : ℚ)⌉ := by
  have hL0 : (0 : Int) < L := by omega
  rw [Int.fdiv_eq_ediv _ (le_of_lt hL0)]
  have hmod := Int.ediv_add_emod (t + L - 1) L
  have hr0 : 0 ≤ (t + L - 1) % L := Int.emod_nonneg _ (by omega)
  have hrL : (t + L - 1) % L < L := Int.emod_lt_of_pos _ hL0
  have key1 : ((t + L - 1) / L - 1) * L < t := by
    have h1 : ((t + L - 1) / L - 1) * L = L * ((t + L - 1) / L) - L := by ring
    omega
  have key2 : t ≤ ((t + L - 1) / L) * L := by
    have h2 : ((t + L - 1) / L) * L = L * ((t + L - 1) / L) := by ring
    omega
  have hLq : (0 : ℚ) < (L : ℚ) := by exact_mod_cast hL0
  symm
  rw [Int.ceil_eq_iff]
  constructor
  · rw [lt_div_iff hLq]
    push_cast
    exact_mod_cast key1
  · rw [div_le_iff hLq]
    exact_mod_cast key2

/-- **C8** (confirmed).  For a history request whose `page` parses to a value
`≥ 0` and whose `limit` parses to a value `≥ 1`, the pagination object carries
`total_pages = ⌈total / limit⌉` (with `total_pages = 1` when `total = 0`), and
the returned records are exactly the user's history entries at offsets
`page*limit … page*limit + limit - 1`. -/
theorem C8_pagination (db : DB) (uid : Int) (pageS limitS : Option String) (page limit : Int)
    (hpage : (match pageS with | none => some 0 | some s => pyInt s) = some page)
    (hlimit : (match limitS with | none => some 10 | some s => pyInt s) = some limit)
    (hp : 0 ≤ page) (hl : 1 ≤ limit) :
    handle_history_core db uid pageS limitS
      = .ok (db_get_history db uid limit (page * limit),
             ⟨page, limit, db_get_total_history_count db uid,
              history_total_pages (db_get_total_history_count db uid) limit⟩)
    ∧ history_total_pages (db_get_total_history_count db uid) limit
        = (if db_get_total_history_count db uid = 0 then 1
           else ⌈((db_get_total_history_count db uid : Int) : ℚ) / (limit : ℚ)⌉)
    ∧ (∀ i : Nat, i < limit.toNat →
        (db_get_history db uid limit (page * limit))[i]?
          = (db.history.filter (fun h => h.user_id = uid))[(page * limit).toNat + i]?) := by
  refine ⟨?_, ?_, ?_⟩
  · unfold handle_history_core
    rw [hpage, hlimit]
  · unfold history_total_pages
    by_cases ht : db_get_total_history_count db uid = 0
    · simp [ht]
    · have ht' : 0 < db_get_total_history_count db uid := Nat.pos_of_ne_zero ht
      rw [if_pos ht', if_neg ht]
      exact fdiv_add_sub_one_eq_ceil _ limit (by exact_mod_cast ht') hl
  · intro i hi
    unfold db_get_history
    rw [List.getElem?_take_of_lt hi, List.getElem?_drop]

/-- Witness for C8: twelve records, `page=0`, `limit=10` — records 0..9, two
pages. -/
theorem C8_witness :
    (0 : Int) ≤ 0 ∧ (1 : Int) ≤ 10
    ∧ (handle_history_core
          { users := [(1, sampleUserRow)],
            history := (List.range 12).map (fun i => ⟨1, toString i, [], "", "c", false⟩) }
          1 (some "0") (some "10")
        = .ok (db_get_history
                 { users := [(1, sampleUserRow)],
                   history := (List.range 12).map (fun i => ⟨1, toString i, [], "", "c", false⟩) }
                 1 10 0,
               ⟨0, 10, 12, 2⟩)
      ∧ (∀ i : Nat, i < (10 : Int).toNat →
          (db_get_history
              { users := [(1, sampleUserRow)],
                history := (List.range 12).map (fun i => ⟨1, toString i, [], "", "c", false⟩) }
              1 10 0)[i]?
            = (({ users := [(1, sampleUserRow)],
                  history := (List.range 12).map (fun i => ⟨1, toString i, [], "", "c", false⟩) }
                  : DB).history.filter (fun h => h.user_id = 1))[(0 : Int).toNat + i]?)) := by
  refine ⟨by decide, by decide, ?_, ?_⟩
  · have h := (C8_pagination
      { users := [(1, sampleUserRow)],
        history := (List.range 12).map (fun i => ⟨1, toString i, [], "", "c", false⟩) }
      1 (some "0") (some "10") 0 10 (by decide) (by decide) (by decide) (by decide)).1
    rw [h]
    refine congrArg _ (congrArg _ ?_)
    have : db_get_total_history_count
        { users := [(1, sampleUserRow)],
          history := (List.range 12).map (fun i => ⟨1, toString i, [], "", "c", false⟩) } 1 = 12 := by
      decide
    refine congrArg₂ (fun a b => Pagination.mk 0 10 a b) this ?_
    rw [this]
    decide
  · have h := (C8_pagination
      { users := [(1, sampleUserRow)],
        history := (List.range 12).map (fun i => ⟨1, toString i, [], "", "c", false⟩) }
      1 (some "0") (some "10") 0 10 (by decide) (by decide) (by decide) (by decide)).2.2
    simpa using h

/-- Counterexample to C1 as stated: the blob `a=1&a=2&hash=…` — whose hash is
the HMAC over the source's check-string `a=1` — verifies, yet its hash is
*not* the HMAC over the claim's canonical string built from every pair
(`a=1\na=2`), so "succeeds iff the supplied hash equals the HMAC over the
canonical string of every non-hash pair" is false; equivalently, changing the
character `2` of the second `a` field does not flip the result. -/
theorem C1_counterexample :
    (verify_telegram_init_data sampleToken 0
        "a=1&a=2&hash=015d7add4c83f5055eb67cd455b75e097a10ffceec52369e784684acb8ea63c6").isSome
    ∧ qsGet (parse_qs "a=1&a=2&hash=015d7add4c83f5055eb67cd455b75e097a10ffceec52369e784684acb8ea63c6") "hash"
        = some "015d7add4c83f5055eb67cd455b75e097a10ffceec52369e784684acb8ea63c6"
    ∧ claimHash sampleToken "a=1&a=2&hash=015d7add4c83f5055eb67cd455b75e097a10ffceec52369e784684acb8ea63c6"
        ≠ "015d7add4c83f5055eb67cd455b75e097a10ffceec52369e784684acb8ea63c6" := by
  refine ⟨by decide, by decide, by decide⟩

end Proverka
